import Mathlib

/-!
Shallow embedding of the versioned capability-resolution mechanism of the
mct-model-optimization repository, together with the relevant parts of its
network-deployment test harness, and proofs about them.

Embedded source files:
- model_compression_toolkit/target_platform_capabilities/tpc_models/get_target_platform_capabilities.py
- model_compression_toolkit/target_platform_capabilities/tpc_models/qnnpack_tpc/latest/__init__.py
- tests_pytest/network_deployment/network_deployment_tests.py
-/

/-- Model of the Python runtime values that reach the resolution surface as a
`tpc_version` or `name` argument: strings, floats with a finite decimal
representation (an integer part and the list of decimal digits printed after
the point), and None. -/
inductive PyVal where
  | pstr : String → PyVal
  | pfloat : Int → List Nat → PyVal
  | pnone : PyVal
deriving DecidableEq, Repr

/-- Decimal digits printed after the point for a float: Python prints at least
one digit after the point, so an empty digit list renders as "0". -/
def fracString : List Nat → String
  | [] => "0"
  | ds => String.join (ds.map (fun d => toString d))

/-- Model of Python builtin str on the embedded values: the identity on
strings, the shortest decimal form on floats (str(1.0) is "1.0"), and "None"
on None. -/
def pyStr : PyVal → String
  | PyVal.pstr s => s
  | PyVal.pfloat i ds => toString i ++ "." ++ fracString ds
  | PyVal.pnone => "None"

/-- Modelled from the spec (the schema class TargetPlatformCapabilities is not
part of the excerpt): a CapabilityDescriptor is an immutable, fully-resolved
configuration object; its internal content is opaque to the resolver, so it is
modelled as an opaque identifier. -/
structure TargetPlatformCapabilities where
  descriptor_id : Nat
deriving DecidableEq, Repr

/-- Association-list lookup by exact string match, the "single
dictionary-style dispatch" of the spec. -/
def lookupAssoc {α : Type} : List (String × α) → String → Option α
  | [], _ => none
  | (k, v) :: rest, key => if k = key then some v else lookupAssoc rest key

/-- Modelled from the spec (generate_tpc_func and the registry it queries are
not part of the excerpt): the Registry is a process-wide read-only mapping
from device type to a version dispatcher, itself a mapping from canonical
version string to a descriptor. -/
structure Registry where
  devices : List (String × List (String × TargetPlatformCapabilities))
deriving DecidableEq, Repr

/-- Resolution-time errors of the capability resolver. -/
inductive ResolveError where
  | UnknownDeviceType
  | UnknownVersion
deriving DecidableEq, Repr

/-- Modelled from the spec (the function body is not part of the excerpt):
generate_tpc_func looks up device_type in the Registry and returns the
per-device version dispatcher, failing with UnknownDeviceType when the device
type is absent. -/
def generate_tpc_func (reg : Registry) (device_type : String) :
    Except ResolveError (List (String × TargetPlatformCapabilities)) :=
  match lookupAssoc reg.devices device_type with
  | some dispatcher => Except.ok dispatcher
  | none => Except.error ResolveError.UnknownDeviceType

/-- Modelled from the spec (the dispatcher bodies are not part of the
excerpt): applying a per-device dispatcher to a canonical version string
returns the descriptor registered for that exact string, failing with
UnknownVersion when no entry exists; there is no fallback to a latest or
default entry. -/
def applyDispatcher (dispatcher : List (String × TargetPlatformCapabilities))
    (tpc_version : String) : Except ResolveError TargetPlatformCapabilities :=
  match lookupAssoc dispatcher tpc_version with
  | some tpc => Except.ok tpc
  | none => Except.error ResolveError.UnknownVersion

/-- Modelled from the spec (constants.py is not part of the excerpt): the
opaque device-type tag naming the IMX500 target. -/
def IMX500_TP_MODEL : String := "imx500"

/-- Embedding of get_target_platform_capabilities
(get_target_platform_capabilities.py, lines 20-39): obtain the per-device
dispatcher for device_type, coerce tpc_version to its canonical string form,
invoke the dispatcher with it and return the result.  The registry, implicit
module state in Python, is passed explicitly. -/
def get_target_platform_capabilities (reg : Registry)
    (tpc_version : PyVal := PyVal.pstr "1.0")
    (device_type : String := IMX500_TP_MODEL) :
    Except ResolveError TargetPlatformCapabilities := do
  let tpc_func ← generate_tpc_func reg device_type
  let tpc_version := pyStr tpc_version
  let tpc ← applyDispatcher tpc_func tpc_version
  return tpc

/-- Embedding of get_tpc_model (get_target_platform_capabilities.py, lines
42-55): returns the TargetPlatformCapabilities it receives; name is unused. -/
def get_tpc_model (name : PyVal) (tpc : TargetPlatformCapabilities) :
    TargetPlatformCapabilities :=
  tpc

/-- Embedding of the conditional import in qnnpack_tpc/latest/__init__.py
(lines 17-19) as the list of (alias, imported symbol) pairs it binds, in
source order, when FOUND_TORCH holds; nothing is bound otherwise.  The source
line reads: from ... import get_tpc_model as generate_pytorch_tpc,
get_tpc_model as generate_pytorch_tpc. -/
def qnnpack_latest_torch_bindings (FOUND_TORCH : Bool) : List (String × String) :=
  if FOUND_TORCH then
    [("generate_pytorch_tpc", "get_tpc_model"),
     ("generate_pytorch_tpc", "get_tpc_model")]
  else
    []

/-- Python module-namespace semantics for a sequence of bindings: a later
binding of the same name overwrites the earlier one, so the namespace keeps
one entry per distinct bound name. -/
def moduleNamespace (bs : List (String × String)) : List (String × String) :=
  bs.foldl (fun ns b => (ns.filter (fun p => p.1 != b.1)) ++ [b]) []

/-- A numpy array, abstracted to the attribute the harness constrains: its
shape.  np.random.randn(*shape) is modelled as the array of that shape with
its random contents abstracted away. -/
structure NDArray where
  shape : List Nat
deriving DecidableEq, Repr

/-- Model of np.random.randn applied to an unpacked shape tuple. -/
def np_random_randn (shape : List Nat) : NDArray :=
  { shape := shape }

/-- Embedding of the NetworkDeploymentBaseTest instance state after __init__
(network_deployment_tests.py, lines 29-42).  Note input_shape stores
(batch_size,) + input_shape, as assigned on line 40. -/
structure NetworkDeploymentBaseTest where
  tpc_version : PyVal
  device_type : String
  save_folder : String
  input_shape : List Nat
  num_calibration_iter : Nat
  num_of_inputs : Nat
deriving DecidableEq, Repr

/-- Embedding of NetworkDeploymentBaseTest.__init__ (lines 29-42), with the
constructor defaults of the source. -/
def NetworkDeploymentBaseTest.init (tpc_version : PyVal)
    (device_type : String := IMX500_TP_MODEL)
    (save_folder : String := "./")
    (input_shape : List Nat := [3, 224, 224])
    (batch_size : Nat := 1)
    (num_calibration_iter : Nat := 1)
    (num_of_inputs : Nat := 1) : NetworkDeploymentBaseTest :=
  { tpc_version := tpc_version
    device_type := device_type
    save_folder := save_folder
    input_shape := batch_size :: input_shape
    num_calibration_iter := num_calibration_iter
    num_of_inputs := num_of_inputs }

/-- Embedding of get_input_shapes (lines 44-45). -/
def NetworkDeploymentBaseTest.get_input_shapes
    (t : NetworkDeploymentBaseTest) : List (List Nat) :=
  (List.range t.num_of_inputs).map (fun _ => t.input_shape)

/-- Embedding of generate_inputs (lines 47-48). -/
def NetworkDeploymentBaseTest.generate_inputs
    (t : NetworkDeploymentBaseTest) : List NDArray :=
  t.get_input_shapes.map (fun in_shape => np_random_randn in_shape)

/-- Embedding of representative_data_gen (lines 50-52) as the finite sequence
of batches one generator object yields before stopping.  The generator reads
only the immutable fields of the instance, so every fresh invocation yields
the sequence this function computes. -/
def NetworkDeploymentBaseTest.representative_data_gen
    (t : NetworkDeploymentBaseTest) : List (List NDArray) :=
  (List.range t.num_calibration_iter).map (fun _ => t.generate_inputs)

/-- Embedding of check_libs (lines 66-75), as a function of the exit codes
the two probe invocations return: a non-zero java -version exit code raises
SystemExit before the converter is probed; a non-zero imxconv-pt --version
exit code raises SystemExit; otherwise the method returns normally. -/
def check_libs (java_returncode : Int) (imxconv_returncode : Int) :
    Except String Unit :=
  if java_returncode ≠ 0 then
    Except.error "Stopping execution: Java is not installed."
  else if imxconv_returncode ≠ 0 then
    Except.error "Stopping execution: IMX500 Converter is not installed."
  else
    Except.ok ()

/-- A file system, abstracted to the set of paths that exist. -/
structure FileSystem where
  existing : List String
deriving DecidableEq, Repr

/-- Model of os.path.exists. -/
def os_path_exists (fs : FileSystem) (path : String) : Bool :=
  fs.existing.contains path

/-- Outcome of the tail of run_test. -/
inductive RunResult where
  | passed
  | converterFailed (code : Int)
deriving DecidableEq, Repr

/-- Embedding of the tail of run_test (lines 94-99): subprocess.run with
check=True raises when the converter exits non-zero; otherwise line 96
evaluates os.path.exists on the expected .pbtxt artifact and discards the
result, and the run completes. -/
def run_test_post_converter (fs : FileSystem) (save_folder : String)
    (converter_exit : Int) : RunResult :=
  if converter_exit ≠ 0 then
    RunResult.converterFailed converter_exit
  else
    let _pbtxt_exists := os_path_exists fs (save_folder ++ "/qmodel.pbtxt")
    RunResult.passed

/-- A process environment, as an association list of variable bindings. -/
def EnvMap : Type := List (String × String)

/-- Model of reading os.environ at a key. -/
def envGet (env : EnvMap) (key : String) : Option String :=
  lookupAssoc env key

/-- Model of assigning os.environ at a key. -/
def envSet (env : EnvMap) (key : String) (value : String) : EnvMap :=
  match env with
  | [] => [(key, value)]
  | (k, v) :: rest =>
      if k = key then (k, value) :: rest else (k, v) :: envSet rest key value

/-- Embedding of the os.environ mutation run_test performs (lines 90-91):
PATH is reassigned to the directory of the running interpreter, a colon, and
the old PATH.  os.environ is process-global and run_test never restores it,
so this is the environment after run_test returns. -/
def run_test_environ_update (env : EnvMap) (sys_executable_dir : String) :
    EnvMap :=
  envSet env "PATH" (sys_executable_dir ++ ":" ++ ((envGet env "PATH").getD ""))

/-- Helper lemma: reading the environment at the key just assigned returns
the assigned value. -/
theorem envGet_envSet_self (env : EnvMap) (key value : String) :
    envGet (envSet env key value) key = some value := by
  induction env with
  | nil => simp [envSet, envGet, lookupAssoc]
  | cons hd tl ih =>
      obtain ⟨k, v⟩ := hd
      by_cases hk : k = key
      · simp [envSet, envGet, lookupAssoc, hk]
      · simpa [envSet, envGet, lookupAssoc, hk] using ih

/-- Helper lemma: reading the environment at any other key is unchanged by
an assignment. -/
theorem envGet_envSet_other (env : EnvMap) (key value other : String)
    (h : other ≠ key) :
    envGet (envSet env key value) other = envGet env other := by
  induction env with
  | nil => simp [envSet, envGet, lookupAssoc, Ne.symm h]
  | cons hd tl ih =>
      obtain ⟨k, v⟩ := hd
      by_cases hk : k = key
      · subst hk
        simp [envSet, envGet, lookupAssoc, Ne.symm h]
      · by_cases ho : k = other
        · subst ho
          simp [envSet, envGet, lookupAssoc, hk]
        · simpa [envSet, envGet, lookupAssoc, hk, ho] using ih

/-- Helper lemma: binding an Except value into pure yields the value
itself. -/
theorem except_bind_pure {ε α : Type} (x : Except ε α) :
    (x >>= fun a => pure a) = x := by
  cases x <;> rfl

/-- C1: resolution first obtains the per-device dispatcher for device_type,
then invokes it with the canonical string form of the version, and returns
exactly the dispatcher's result. -/
theorem C1_resolve_is_dispatch_of_canonical_version (reg : Registry)
    (tpc_version : PyVal) (device_type : String) :
    get_target_platform_capabilities reg tpc_version device_type =
      (generate_tpc_func reg device_type >>= fun tpc_func =>
        applyDispatcher tpc_func (pyStr tpc_version)) := by
  unfold get_target_platform_capabilities
  cases generate_tpc_func reg device_type with
  | error e => rfl
  | ok tpc_func => exact except_bind_pure (applyDispatcher tpc_func (pyStr tpc_version))

/-- The registry of the end-to-end scenario in the spec: one device with one
registered version. -/
def sampleRegistry : Registry :=
  { devices := [("deviceA", [("1.0", { descriptor_id := 7 })])] }

/-- C3: resolution either returns a complete descriptor or fails outright:
an unregistered device type yields UnknownDeviceType regardless of version,
a registered device type with an unregistered canonical version string
yields UnknownVersion, and every successful resolution returns exactly the
descriptor registered for the canonical version string, never a latest or
default fallback. -/
theorem C3_no_partial_resolution (reg : Registry) (device_type : String)
    (version : PyVal) :
    (lookupAssoc reg.devices device_type = none →
      get_target_platform_capabilities reg version device_type =
        Except.error ResolveError.UnknownDeviceType) ∧
    (∀ dispatcher, lookupAssoc reg.devices device_type = some dispatcher →
      lookupAssoc dispatcher (pyStr version) = none →
      get_target_platform_capabilities reg version device_type =
        Except.error ResolveError.UnknownVersion) ∧
    (∀ dispatcher tpc, lookupAssoc reg.devices device_type = some dispatcher →
      get_target_platform_capabilities reg version device_type = Except.ok tpc →
      lookupAssoc dispatcher (pyStr version) = some tpc) := by
  refine ⟨fun hdev => ?_, fun dispatcher hdev hver => ?_, fun dispatcher tpc hdev hok => ?_⟩
  · simp [get_target_platform_capabilities, generate_tpc_func, Bind.bind, Except.bind, hdev]
  · simp [get_target_platform_capabilities, generate_tpc_func, applyDispatcher,
      Bind.bind, Except.bind, hdev, hver]
  · by_cases hver : lookupAssoc dispatcher (pyStr version) = none
    · simp [get_target_platform_capabilities, generate_tpc_func, applyDispatcher,
        Bind.bind, Except.bind, hdev, hver] at hok
    · obtain ⟨d, hd⟩ := Option.ne_none_iff_exists'.mp hver
      simp [get_target_platform_capabilities, generate_tpc_func, applyDispatcher,
        Bind.bind, Except.bind, Pure.pure, Except.pure, hdev, hd] at hok
      rw [hd, hok]

/-- Witness for C3: in the sample registry, an unknown device fails with
UnknownDeviceType and an unknown version of a known device fails with
UnknownVersion. -/
theorem C3_no_partial_resolution_witness :
    get_target_platform_capabilities sampleRegistry (PyVal.pstr "1.0") "deviceB" =
      Except.error ResolveError.UnknownDeviceType ∧
    get_target_platform_capabilities sampleRegistry (PyVal.pstr "2.0") "deviceA" =
      Except.error ResolveError.UnknownVersion :=
  ⟨(C3_no_partial_resolution sampleRegistry "deviceB" (PyVal.pstr "1.0")).1 rfl,
   (C3_no_partial_resolution sampleRegistry "deviceA" (PyVal.pstr "2.0")).2.1
     [("1.0", { descriptor_id := 7 })] rfl rfl⟩

/-- C4: version canonicalization is stable: resolving with any version value
and with its canonical string form yields identical results, and in
particular the float 1.0 and the string "1.0" resolve identically for every
registry and device type. -/
theorem C4_canonicalization_stable (reg : Registry) (device_type : String)
    (version : PyVal) :
    (get_target_platform_capabilities reg version device_type =
      get_target_platform_capabilities reg (PyVal.pstr (pyStr version)) device_type) ∧
    (get_target_platform_capabilities reg (PyVal.pfloat 1 []) device_type =
      get_target_platform_capabilities reg (PyVal.pstr "1.0") device_type) := by
  constructor
  · rfl
  · have h : pyStr (PyVal.pfloat 1 []) = pyStr (PyVal.pstr "1.0") := by decide
    simp [get_target_platform_capabilities, h]

/-- C5: the pass-through shim returns exactly the descriptor it was given for
every name value, including the empty string and None, and the name argument
has no effect on the result. -/
theorem C5_get_tpc_model_pass_through :
    (∀ (name : PyVal) (tpc : TargetPlatformCapabilities),
      get_tpc_model name tpc = tpc) ∧
    (∀ (name₁ name₂ : PyVal) (tpc : TargetPlatformCapabilities),
      get_tpc_model name₁ tpc = get_tpc_model name₂ tpc) ∧
    (∀ tpc : TargetPlatformCapabilities,
      get_tpc_model (PyVal.pstr "") tpc = tpc ∧
        get_tpc_model PyVal.pnone tpc = tpc) :=
  ⟨fun _ _ => rfl, fun _ _ _ => rfl, fun _ => ⟨rfl, rfl⟩⟩

/-- C6: check_libs raises SystemExit exactly when the java probe or the
converter probe exits non-zero, and returns normally when both exit zero. -/
theorem C6_check_libs_raises_iff (java_returncode imxconv_returncode : Int) :
    (check_libs java_returncode imxconv_returncode = Except.ok () ↔
      (java_returncode = 0 ∧ imxconv_returncode = 0)) ∧
    ((∃ msg, check_libs java_returncode imxconv_returncode = Except.error msg) ↔
      (java_returncode ≠ 0 ∨ imxconv_returncode ≠ 0)) := by
  unfold check_libs
  by_cases hj : java_returncode = 0 <;> by_cases hi : imxconv_returncode = 0 <;>
    simp [hj, hi]

/-- C2 (code evaluated at the failing input): with an empty file system after
a successful converter run, the expected .pbtxt artifact does not exist and
yet the tail of run_test completes as passed, because line 96 discards the
result of os.path.exists; moreover the outcome is independent of the file
system altogether. -/
theorem C2_artifact_check_result_discarded :
    (os_path_exists { existing := [] } "./mobilenet_pt/qmodel.pbtxt" = false ∧
      run_test_post_converter { existing := [] } "./mobilenet_pt" 0 =
        RunResult.passed) ∧
    (∀ (fs : FileSystem) (save_folder : String),
      run_test_post_converter fs save_folder 0 = RunResult.passed) :=
  ⟨⟨rfl, rfl⟩, fun _ _ => rfl⟩

/-- C7 (code evaluated at the failing input): with FOUND_TORCH, the
conditional import binds the alias generate_pytorch_tpc twice to
get_tpc_model, so the resulting module namespace holds exactly one name, not
two distinguishable ones. -/
theorem C7_single_alias_not_two :
    moduleNamespace (qnnpack_latest_torch_bindings true) =
      [("generate_pytorch_tpc", "get_tpc_model")] ∧
    (moduleNamespace (qnnpack_latest_torch_bindings true)).length = 1 ∧
    (moduleNamespace (qnnpack_latest_torch_bindings true)).length ≠ 2 := by
  refine ⟨?_, ?_, ?_⟩ <;> decide

/-- C8: the representative data generator yields exactly num_calibration_iter
batches and stops; each batch is a list of num_of_inputs arrays, each of
shape (batch_size,) followed by input_shape.  The generator reads only the
immutable fields set by the constructor, so a fresh invocation after
exhaustion is the same value and again yields num_calibration_iter
batches. -/
theorem C8_representative_data_gen_batches (tpc_version : PyVal)
    (device_type save_folder : String) (input_shape : List Nat)
    (batch_size num_calibration_iter num_of_inputs : Nat) :
    ((NetworkDeploymentBaseTest.init tpc_version device_type save_folder
        input_shape batch_size num_calibration_iter
        num_of_inputs).representative_data_gen).length = num_calibration_iter ∧
    ((NetworkDeploymentBaseTest.init tpc_version device_type save_folder
        input_shape batch_size num_calibration_iter
        num_of_inputs).representative_data_gen).all
      (fun batch => batch.length == num_of_inputs &&
        batch.all (fun arr => arr.shape == batch_size :: input_shape)) = true := by
  constructor
  · simp [NetworkDeploymentBaseTest.representative_data_gen,
      NetworkDeploymentBaseTest.init]
  · simp [NetworkDeploymentBaseTest.representative_data_gen,
      NetworkDeploymentBaseTest.generate_inputs,
      NetworkDeploymentBaseTest.get_input_shapes,
      NetworkDeploymentBaseTest.init, np_random_randn, List.all_eq_true]

/-- C9: both arguments of get_target_platform_capabilities carry implicit
defaults: omitting them resolves version "1.0" for the IMX500 device type. -/
theorem C9_implicit_defaults (reg : Registry) :
    (get_target_platform_capabilities reg :
        Except ResolveError TargetPlatformCapabilities) =
      get_target_platform_capabilities reg (PyVal.pstr "1.0") IMX500_TP_MODEL :=
  rfl

/-- C10: run_test reassigns os.environ so that PATH becomes the directory of
the running interpreter, a colon, and the old PATH, and this persists after
run_test returns; every other environment variable is unchanged. -/
theorem C10_environ_path_prepended (env : EnvMap)
    (sys_executable_dir old_path : String)
    (h : envGet env "PATH" = some old_path) :
    envGet (run_test_environ_update env sys_executable_dir) "PATH" =
      some (sys_executable_dir ++ ":" ++ old_path) ∧
    (∀ key, key ≠ "PATH" →
      envGet (run_test_environ_update env sys_executable_dir) key =
        envGet env key) := by
  constructor
  · rw [run_test_environ_update, h]
    exact envGet_envSet_self env "PATH" (sys_executable_dir ++ ":" ++ old_path)
  · intro key hkey
    rw [run_test_environ_update]
    exact envGet_envSet_other env "PATH" _ key hkey

/-- Witness for C10: a concrete two-variable environment, where PATH is
rewritten to the prepended form and HOME is untouched. -/
theorem C10_environ_path_prepended_witness :
    envGet (run_test_environ_update [("HOME", "/root"), ("PATH", "/usr/bin")]
        "/opt/venv/bin") "PATH" = some "/opt/venv/bin:/usr/bin" ∧
    envGet (run_test_environ_update [("HOME", "/root"), ("PATH", "/usr/bin")]
        "/opt/venv/bin") "HOME" = some "/root" := by
  have h := C10_environ_path_prepended [("HOME", "/root"), ("PATH", "/usr/bin")]
    "/opt/venv/bin" "/usr/bin" (by decide)
  exact ⟨h.1.trans (by decide), (h.2 "HOME" (by decide)).trans (by decide)⟩
